import Mathlib

/-!
Shallow embedding of the country-comparator backend
(`server/countryHelpers.ts`): the TTL cache, the retrying fetcher,
the holiday and timezone providers and the comparison engine.

JavaScript `Map` objects are modelled as association lists in insertion
order: `Map.set` updates an existing key in place (keeping its position)
or appends a fresh entry at the end, which is exactly the semantics of
`jsMapSet` below.  Effectful functions are modelled by explicit state
passing (the cache) and by oracle parameters (the outcome of each network
attempt, the clock, the runtime's timezone formatter).
-/

set_option autoImplicit false

universe u

variable {α : Type u} {β : Type u}

/-- Model of `Map.prototype.get` on a string-keyed JS map. -/
def jsMapGet : List (String × α) → String → Option α
  | [], _ => none
  | kv :: t, k => if kv.1 = k then some kv.2 else jsMapGet t k

/-- Model of `Map.prototype.has`. -/
def jsMapHas : List (String × α) → String → Bool
  | [], _ => false
  | kv :: t, k => decide (kv.1 = k) || jsMapHas t k

/-- Model of `Map.prototype.set`: update in place when the key exists,
otherwise append the new entry at the end (JS insertion order). -/
def jsMapSet (m : List (String × α)) (k : String) (v : α) : List (String × α) :=
  if jsMapHas m k then m.map (fun kv => if kv.1 = k then (k, v) else kv)
  else m ++ [(k, v)]

/-- Model of `Map.prototype.delete`. -/
def jsMapDelete (m : List (String × α)) (k : String) : List (String × α) :=
  m.filter (fun kv => kv.1 ≠ k)

/-- Model of `new Map(entries)`: set every pair in order. -/
def jsMapOfList (l : List (String × α)) : List (String × α) :=
  l.foldl (fun m kv => jsMapSet m kv.1 kv.2) []

/-! ### TTL cache (`getCacheKey`, `getFromCache`, `setCache`) -/

/-- A cache entry pairs the stored data with its insertion timestamp
(milliseconds, `Date.now()`). -/
structure CacheEntry (α : Type u) where
  data : α
  timestamp : Nat
deriving Repr, DecidableEq

/-- The in-memory cache, a JS `Map` from composite string keys to entries. -/
abbrev Cache (α : Type u) := List (String × CacheEntry α)

/-- `CACHE_TTL.HOLIDAYS`: 24 hours in milliseconds. -/
def CACHE_TTL_HOLIDAYS : Nat := 24 * 60 * 60 * 1000

/-- `CACHE_TTL.TIMEZONES`: 1 hour in milliseconds. -/
def CACHE_TTL_TIMEZONES : Nat := 60 * 60 * 1000

/-- Composite cache keys: namespace plus `:`-joined arguments. -/
def getCacheKey (pre : String) (args : List String) : String :=
  pre ++ ":" ++ String.intercalate ":" args

/-- Model of `getFromCache`: a lookup at clock time `now`.  Returns the
cached data (or `none`) together with the cache after the lookup — an
expired entry is deleted as part of the lookup. -/
def getFromCache (c : Cache α) (key : String) (ttl : Nat) (now : Nat) :
    Option α × Cache α :=
  match jsMapGet c key with
  | none => (none, c)
  | some entry =>
    if now - entry.timestamp > ttl then (none, jsMapDelete c key)
    else (some entry.data, c)

/-- Model of `setCache`: store `data` under `key` with timestamp `now`. -/
def setCache (c : Cache α) (key : String) (data : α) (now : Nat) : Cache α :=
  jsMapSet c key ⟨data, now⟩

/-! ### Resilient fetcher (`fetchWithRetry`)

The network is an oracle `attempt : Nat → Except ε σ` giving the outcome
of the i-th try: `Except.error` collapses every failure kind the
`try`/`catch` in the source treats uniformly (transport error, non-ok
HTTP status, malformed body), `Except.ok` is the decoded JSON body.
The model also records how many attempts ran and the backoff delays
(milliseconds) that were slept between attempts. -/

structure RetryResult (ε σ : Type u) where
  result : Except ε σ
  numAttempts : Nat
  delays : List Nat
deriving Repr

/-- The retry loop body: `i` is the current attempt index, `remaining`
the number of retries still allowed (`maxRetries - i`). -/
def retryGo {ε σ : Type u} (attempt : Nat → Except ε σ) : Nat → Nat → RetryResult ε σ
  | i, remaining =>
    match attempt i with
    | Except.ok v => ⟨Except.ok v, i + 1, []⟩
    | Except.error e =>
      match remaining with
      | 0 => ⟨Except.error e, i + 1, []⟩
      | r + 1 =>
        let rest := retryGo attempt (i + 1) r
        ⟨rest.result, rest.numAttempts, 1000 * (i + 1) :: rest.delays⟩

/-- Model of `fetchWithRetry(url, maxRetries = 2)`. -/
def fetchWithRetry {ε σ : Type u} (attempt : Nat → Except ε σ)
    (maxRetries : Nat := 2) : RetryResult ε σ :=
  retryGo attempt 0 maxRetries

/-! ### Data model -/

/-- The canonical `Holiday` record. -/
structure Holiday where
  date : String
  name : String
  localName : Option String
  countryCode : Option String
deriving Repr, DecidableEq

/-- An upstream holiday record (the fields `getHolidays` reads). -/
structure RawHoliday where
  date : String
  name : String
  localName : Option String
  countryCode : Option String
deriving Repr, DecidableEq

/-- The per-record normalisation inside `getHolidays`. -/
def normalizeHoliday (h : RawHoliday) : Holiday :=
  ⟨h.date, h.name, h.localName, h.countryCode⟩

/-- A zone's current offset snapshot. -/
structure ZoneStatus where
  zone : String
  utc_offset : String
  dst : Bool
deriving Repr, DecidableEq

/-- The fields of a WorldTimeAPI response that `getZoneStatus` reads;
`dst` is optional because the source guards it with `data.dst || false`. -/
structure LiveZoneData where
  timezone : String
  utc_offset : String
  dst : Option Bool
deriving Repr, DecidableEq

/-! ### Holiday provider (`getHolidays`) -/

/-- Model of `getHolidays(countryCode, year)`.  Besides the result it
returns the cache after the call and the number of times the resilient
fetcher was invoked (0 on a cache hit, otherwise 1 — the source consults
a single upstream source, Nager.Date, and returns `[]` on its failure). -/
def getHolidays (countryCode : String) (year : Nat)
    (attempt : Nat → Except String (List RawHoliday))
    (cache : Cache (List Holiday)) (now : Nat) :
    List Holiday × Cache (List Holiday) × Nat :=
  let cacheKey := getCacheKey "holidays" [countryCode, toString year]
  let looked := getFromCache cache cacheKey CACHE_TTL_HOLIDAYS now
  match looked.1 with
  | some cached => (cached, looked.2, 0)
  | none =>
    match (fetchWithRetry attempt).result with
    | Except.ok data =>
      let holidays := data.map normalizeHoliday
      (holidays, setCache looked.2 cacheKey holidays now, 1)
    | Except.error _ => ([], looked.2, 1)

/-! ### Timezone status provider (`getZoneStatus`) -/

/-- Character-level check that `pat` starts the list `s`. -/
def startsWithChars : List Char → List Char → Bool
  | [], _ => true
  | _ :: _, [] => false
  | p :: ps, c :: cs => p == c && startsWithChars ps cs

/-- Remove the first occurrence of `pat` from `s` (no-op when absent). -/
def removeFirst (s pat : List Char) : List Char :=
  match s with
  | [] => []
  | c :: rest =>
    if startsWithChars pat (c :: rest) then (c :: rest).drop pat.length
    else c :: removeFirst rest pat

/-- Model of `offsetPart.value.replace("GMT", "")`:
JS `String.prototype.replace` with a string pattern replaces only the
first occurrence. -/
def stripGMT (s : String) : String :=
  ⟨removeFirst s.data "GMT".data⟩

/-- The `±HH:MM` shape claimed for `utc_offset`: a sign, two digits,
a colon, two digits. -/
def isSignedHHMM (s : String) : Bool :=
  match s.data with
  | [sg, h1, h2, c, m1, m2] =>
    (sg == '+' || sg == '-') && h1.isDigit && h2.isDigit &&
      (c == ':') && m1.isDigit && m2.isDigit
  | _ => false

/-- Model of `getZoneStatus(zone)`.  The live time-service is the
`attempt` oracle fed to the resilient fetcher; `localFormat` is the
outcome of the `Intl.DateTimeFormat(..., \x7btimeZoneName: "longOffset"\x7d)`
fallback: `Except.error` when the formatter throws (unknown zone),
`Except.ok none` when no `timeZoneName` part is found, and
`Except.ok (some v)` for a found part value `v` (`GMT±HH:MM`, or plain
`GMT` when the zone's current offset is zero). -/
def getZoneStatus (zone : String) (cache : Cache ZoneStatus) (now : Nat)
    (attempt : Nat → Except String LiveZoneData)
    (localFormat : Except String (Option String)) :
    Option ZoneStatus × Cache ZoneStatus :=
  let cacheKey := getCacheKey "zone" [zone]
  let looked := getFromCache cache cacheKey CACHE_TTL_TIMEZONES now
  match looked.1 with
  | some cached => (some cached, looked.2)
  | none =>
    match (fetchWithRetry attempt).result with
    | Except.ok data =>
      let zoneStatus : ZoneStatus := ⟨data.timezone, data.utc_offset, data.dst.getD false⟩
      (some zoneStatus, setCache looked.2 cacheKey zoneStatus now)
    | Except.error _ =>
      match localFormat with
      | Except.ok (some value) =>
        let offset := stripGMT value
        let zoneStatus : ZoneStatus := ⟨zone, offset, false⟩
        (some zoneStatus, setCache looked.2 cacheKey zoneStatus now)
      | Except.ok none => (none, looked.2)
      | Except.error _ => (none, looked.2)

/-! ### Static country→timezone table (`COUNTRY_TIMEZONES`) -/

/-- The static `COUNTRY_TIMEZONES` record, as an association list in
source order. -/
def COUNTRY_TIMEZONES : List (String × List String) := [
  ("AF", ["Asia/Kabul"]),
  ("AL", ["Europe/Tirane"]),
  ("DE", ["Europe/Berlin", "Europe/Busingen"]),
  ("AD", ["Europe/Andorra"]),
  ("AO", ["Africa/Luanda"]),
  ("AG", ["America/Antigua"]),
  ("SA", ["Asia/Riyadh"]),
  ("DZ", ["Africa/Algiers"]),
  ("AR", ["America/Argentina/Buenos_Aires", "America/Argentina/Cordoba", "America/Argentina/Salta", "America/Argentina/Jujuy", "America/Argentina/Tucuman", "America/Argentina/Catamarca", "America/Argentina/La_Rioja", "America/Argentina/San_Juan", "America/Argentina/Mendoza", "America/Argentina/San_Luis", "America/Argentina/Rio_Gallegos", "America/Argentina/Ushuaia"]),
  ("AM", ["Asia/Yerevan"]),
  ("AU", ["Australia/Sydney", "Australia/Melbourne", "Australia/Brisbane", "Australia/Perth", "Australia/Adelaide", "Australia/Hobart", "Australia/Darwin", "Australia/Lindeman", "Australia/Lord_Howe", "Australia/Eucla", "Australia/Broken_Hill"]),
  ("AT", ["Europe/Vienna"]),
  ("AZ", ["Asia/Baku"]),
  ("BS", ["America/Nassau"]),
  ("BH", ["Asia/Bahrain"]),
  ("BD", ["Asia/Dhaka"]),
  ("BB", ["America/Barbados"]),
  ("BE", ["Europe/Brussels"]),
  ("BZ", ["America/Belize"]),
  ("BJ", ["Africa/Porto-Novo"]),
  ("BY", ["Europe/Minsk"]),
  ("MM", ["Asia/Yangon"]),
  ("BO", ["America/La_Paz"]),
  ("BA", ["Europe/Sarajevo"]),
  ("BW", ["Africa/Gaborone"]),
  ("BR", ["America/Sao_Paulo", "America/Manaus", "America/Fortaleza", "America/Belem", "America/Recife", "America/Araguaina", "America/Maceio", "America/Bahia", "America/Campo_Grande", "America/Cuiaba", "America/Santarem", "America/Porto_Velho", "America/Boa_Vista", "America/Rio_Branco", "America/Noronha"]),
  ("BN", ["Asia/Brunei"]),
  ("BG", ["Europe/Sofia"]),
  ("BF", ["Africa/Ouagadougou"]),
  ("BI", ["Africa/Bujumbura"]),
  ("BT", ["Asia/Thimphu"]),
  ("CV", ["Atlantic/Cape_Verde"]),
  ("KH", ["Asia/Phnom_Penh"]),
  ("CM", ["Africa/Douala"]),
  ("CA", ["America/Toronto", "America/Vancouver", "America/Halifax", "America/Winnipeg", "America/Edmonton", "America/St_Johns", "America/Regina", "America/Whitehorse", "America/Yellowknife", "America/Inuvik", "America/Dawson_Creek", "America/Fort_Nelson", "America/Creston", "America/Atikokan", "America/Blanc-Sablon", "America/Iqaluit", "America/Rankin_Inlet", "America/Resolute", "America/Cambridge_Bay", "America/Dawson", "America/Swift_Current"]),
  ("QA", ["Asia/Qatar"]),
  ("TD", ["Africa/Ndjamena"]),
  ("CL", ["America/Santiago", "Pacific/Easter"]),
  ("CN", ["Asia/Shanghai", "Asia/Urumqi"]),
  ("CY", ["Asia/Nicosia", "Asia/Famagusta"]),
  ("CO", ["America/Bogota"]),
  ("KM", ["Indian/Comoro"]),
  ("CG", ["Africa/Brazzaville"]),
  ("KP", ["Asia/Pyongyang"]),
  ("KR", ["Asia/Seoul"]),
  ("CI", ["Africa/Abidjan"]),
  ("CR", ["America/Costa_Rica"]),
  ("HR", ["Europe/Zagreb"]),
  ("CU", ["America/Havana"]),
  ("DK", ["Europe/Copenhagen"]),
  ("DM", ["America/Dominica"]),
  ("EC", ["America/Guayaquil", "Pacific/Galapagos"]),
  ("EG", ["Africa/Cairo"]),
  ("SV", ["America/El_Salvador"]),
  ("AE", ["Asia/Dubai"]),
  ("ER", ["Africa/Asmara"]),
  ("SK", ["Europe/Bratislava"]),
  ("SI", ["Europe/Ljubljana"]),
  ("ES", ["Europe/Madrid", "Africa/Ceuta", "Atlantic/Canary"]),
  ("US", ["America/New_York", "America/Detroit", "America/Kentucky/Louisville", "America/Kentucky/Monticello", "America/Indiana/Indianapolis", "America/Indiana/Vincennes", "America/Indiana/Winamac", "America/Indiana/Marengo", "America/Indiana/Petersburg", "America/Indiana/Vevay", "America/Chicago", "America/Indiana/Tell_City", "America/Indiana/Knox", "America/Menominee", "America/North_Dakota/Center", "America/North_Dakota/New_Salem", "America/North_Dakota/Beulah", "America/Denver", "America/Boise", "America/Phoenix", "America/Los_Angeles", "America/Anchorage", "America/Juneau", "America/Sitka", "America/Metlakatla", "America/Yakutat", "America/Nome", "America/Adak", "Pacific/Honolulu"]),
  ("EE", ["Europe/Tallinn"]),
  ("SZ", ["Africa/Mbabane"]),
  ("ET", ["Africa/Addis_Ababa"]),
  ("PH", ["Asia/Manila"]),
  ("FI", ["Europe/Helsinki"]),
  ("FJ", ["Pacific/Fiji"]),
  ("FR", ["Europe/Paris"]),
  ("GA", ["Africa/Libreville"]),
  ("GM", ["Africa/Banjul"]),
  ("GE", ["Asia/Tbilisi"]),
  ("GH", ["Africa/Accra"]),
  ("GD", ["America/Grenada"]),
  ("GR", ["Europe/Athens"]),
  ("GT", ["America/Guatemala"]),
  ("GN", ["Africa/Conakry"]),
  ("GW", ["Africa/Bissau"]),
  ("GQ", ["Africa/Malabo"]),
  ("GY", ["America/Guyana"]),
  ("HT", ["America/Port-au-Prince"]),
  ("HN", ["America/Tegucigalpa"]),
  ("HU", ["Europe/Budapest"]),
  ("IN", ["Asia/Kolkata"]),
  ("ID", ["Asia/Jakarta", "Asia/Pontianak", "Asia/Makassar", "Asia/Jayapura"]),
  ("IQ", ["Asia/Baghdad"]),
  ("IR", ["Asia/Tehran"]),
  ("IE", ["Europe/Dublin"]),
  ("IS", ["Atlantic/Reykjavik"]),
  ("MH", ["Pacific/Majuro", "Pacific/Kwajalein"]),
  ("SB", ["Pacific/Guadalcanal"]),
  ("IL", ["Asia/Jerusalem"]),
  ("IT", ["Europe/Rome"]),
  ("JM", ["America/Jamaica"]),
  ("JP", ["Asia/Tokyo"]),
  ("JO", ["Asia/Amman"]),
  ("KZ", ["Asia/Almaty", "Asia/Qyzylorda", "Asia/Qostanay", "Asia/Aqtobe", "Asia/Aqtau", "Asia/Atyrau", "Asia/Oral"]),
  ("KE", ["Africa/Nairobi"]),
  ("KG", ["Asia/Bishkek"]),
  ("KI", ["Pacific/Tarawa", "Pacific/Enderbury", "Pacific/Kiritimati"]),
  ("KW", ["Asia/Kuwait"]),
  ("LA", ["Asia/Vientiane"]),
  ("LS", ["Africa/Maseru"]),
  ("LV", ["Europe/Riga"]),
  ("LB", ["Asia/Beirut"]),
  ("LR", ["Africa/Monrovia"]),
  ("LY", ["Africa/Tripoli"]),
  ("LI", ["Europe/Vaduz"]),
  ("LT", ["Europe/Vilnius"]),
  ("LU", ["Europe/Luxembourg"]),
  ("MK", ["Europe/Skopje"]),
  ("MG", ["Indian/Antananarivo"]),
  ("MY", ["Asia/Kuala_Lumpur", "Asia/Kuching"]),
  ("MW", ["Africa/Blantyre"]),
  ("MV", ["Indian/Maldives"]),
  ("ML", ["Africa/Bamako"]),
  ("MT", ["Europe/Malta"]),
  ("MA", ["Africa/Casablanca"]),
  ("MU", ["Indian/Mauritius"]),
  ("MR", ["Africa/Nouakchott"]),
  ("MX", ["America/Mexico_City", "America/Cancun", "America/Merida", "America/Monterrey", "America/Matamoros", "America/Mazatlan", "America/Chihuahua", "America/Ojinaga", "America/Hermosillo", "America/Tijuana", "America/Bahia_Banderas"]),
  ("FM", ["Pacific/Chuuk", "Pacific/Pohnpei", "Pacific/Kosrae"]),
  ("MD", ["Europe/Chisinau"]),
  ("MC", ["Europe/Monaco"]),
  ("MN", ["Asia/Ulaanbaatar", "Asia/Hovd", "Asia/Choibalsan"]),
  ("ME", ["Europe/Podgorica"]),
  ("MZ", ["Africa/Maputo"]),
  ("NA", ["Africa/Windhoek"]),
  ("NR", ["Pacific/Nauru"]),
  ("NP", ["Asia/Kathmandu"]),
  ("NI", ["America/Managua"]),
  ("NE", ["Africa/Niamey"]),
  ("NG", ["Africa/Lagos"]),
  ("NO", ["Europe/Oslo"]),
  ("NZ", ["Pacific/Auckland", "Pacific/Chatham"]),
  ("OM", ["Asia/Muscat"]),
  ("NL", ["Europe/Amsterdam"]),
  ("PK", ["Asia/Karachi"]),
  ("PW", ["Pacific/Palau"]),
  ("PA", ["America/Panama"]),
  ("PG", ["Pacific/Port_Moresby", "Pacific/Bougainville"]),
  ("PY", ["America/Asuncion"]),
  ("PE", ["America/Lima"]),
  ("PL", ["Europe/Warsaw"]),
  ("PT", ["Europe/Lisbon", "Atlantic/Madeira", "Atlantic/Azores"]),
  ("GB", ["Europe/London"]),
  ("CF", ["Africa/Bangui"]),
  ("CZ", ["Europe/Prague"]),
  ("CD", ["Africa/Kinshasa", "Africa/Lubumbashi"]),
  ("DO", ["America/Santo_Domingo"]),
  ("RW", ["Africa/Kigali"]),
  ("RO", ["Europe/Bucharest"]),
  ("RU", ["Europe/Moscow", "Europe/Kaliningrad", "Europe/Simferopol", "Europe/Volgograd", "Europe/Kirov", "Europe/Astrakhan", "Europe/Samara", "Europe/Ulyanovsk", "Asia/Yekaterinburg", "Asia/Omsk", "Asia/Novosibirsk", "Asia/Barnaul", "Asia/Tomsk", "Asia/Novokuznetsk", "Asia/Krasnoyarsk", "Asia/Irkutsk", "Asia/Chita", "Asia/Yakutsk", "Asia/Khandyga", "Asia/Vladivostok", "Asia/Ust-Nera", "Asia/Magadan", "Asia/Sakhalin", "Asia/Srednekolymsk", "Asia/Kamchatka", "Asia/Anadyr"]),
  ("WS", ["Pacific/Apia"]),
  ("KN", ["America/St_Kitts"]),
  ("SM", ["Europe/San_Marino"]),
  ("VC", ["America/St_Vincent"]),
  ("LC", ["America/St_Lucia"]),
  ("ST", ["Africa/Sao_Tome"]),
  ("SN", ["Africa/Dakar"]),
  ("RS", ["Europe/Belgrade"]),
  ("SC", ["Indian/Mahe"]),
  ("SL", ["Africa/Freetown"]),
  ("SG", ["Asia/Singapore"]),
  ("SY", ["Asia/Damascus"]),
  ("SO", ["Africa/Mogadishu"]),
  ("LK", ["Asia/Colombo"]),
  ("ZA", ["Africa/Johannesburg"]),
  ("SD", ["Africa/Khartoum"]),
  ("SS", ["Africa/Juba"]),
  ("SE", ["Europe/Stockholm"]),
  ("CH", ["Europe/Zurich"]),
  ("SR", ["America/Paramaribo"]),
  ("TH", ["Asia/Bangkok"]),
  ("TZ", ["Africa/Dar_es_Salaam"]),
  ("TJ", ["Asia/Dushanbe"]),
  ("TL", ["Asia/Dili"]),
  ("TG", ["Africa/Lome"]),
  ("TO", ["Pacific/Tongatapu"]),
  ("TT", ["America/Port_of_Spain"]),
  ("TN", ["Africa/Tunis"]),
  ("TM", ["Asia/Ashgabat"]),
  ("TR", ["Europe/Istanbul"]),
  ("TV", ["Pacific/Funafuti"]),
  ("UA", ["Europe/Kiev", "Europe/Uzhgorod", "Europe/Zaporozhye"]),
  ("UG", ["Africa/Kampala"]),
  ("UY", ["America/Montevideo"]),
  ("UZ", ["Asia/Samarkand", "Asia/Tashkent"]),
  ("VU", ["Pacific/Efate"]),
  ("VA", ["Europe/Vatican"]),
  ("VE", ["America/Caracas"]),
  ("VN", ["Asia/Ho_Chi_Minh"]),
  ("YE", ["Asia/Aden"]),
  ("DJ", ["Africa/Djibouti"]),
  ("ZM", ["Africa/Lusaka"]),
  ("ZW", ["Africa/Harare"])
]

/-- Model of `getTimezones`: `COUNTRY_TIMEZONES[countryCode] || []`. -/
def getTimezones (countryCode : String) : List String :=
  (jsMapGet COUNTRY_TIMEZONES countryCode).getD []

/-! ### Comparison engine (`compareCountries`) -/

/-- One row of `holidays.common`. -/
structure CommonHoliday where
  date : String
  nameA : String
  nameB : String
deriving Repr, DecidableEq

/-- The holiday partition of a `ComparisonResult`. -/
structure HolidayComparison where
  common : List CommonHoliday
  onlyA : List Holiday
  onlyB : List Holiday
deriving Repr, DecidableEq

/-- One entry of `commonOffsetNow.overlaps`. -/
structure OffsetOverlap where
  offset : String
  zonesA : List String
  zonesB : List String
deriving Repr, DecidableEq

/-- The `commonOffsetNow` report. -/
structure CommonOffsetNow where
  hasOverlap : Bool
  overlaps : List OffsetOverlap
deriving Repr, DecidableEq

/-- The timezone section of a `ComparisonResult`. -/
structure TimezoneComparison where
  A : List ZoneStatus
  B : List ZoneStatus
  commonOffsetNow : CommonOffsetNow
deriving Repr, DecidableEq

/-- The echoed inputs. -/
structure ComparisonInputs where
  countryA : String
  countryB : String
  year : Nat
deriving Repr, DecidableEq

/-- The aggregate output of `compareCountries`. -/
structure ComparisonResult where
  inputs : ComparisonInputs
  holidays : HolidayComparison
  timezones : TimezoneComparison
deriving Repr, DecidableEq

/-- The holiday-merge section of `compareCountries`: build one
date-keyed JS map per side (`new Map(holidays.map(h => [h.date, h]))`,
last write wins on duplicate dates), then walk side A's entries into
`common`/`onlyA` and side B's entries into `onlyB`. -/
def compareHolidays (holidaysA holidaysB : List Holiday) : HolidayComparison :=
  let holidaysAMap := jsMapOfList (holidaysA.map fun h => (h.date, h))
  let holidaysBMap := jsMapOfList (holidaysB.map fun h => (h.date, h))
  let common := holidaysAMap.filterMap fun kv =>
    match jsMapGet holidaysBMap kv.1 with
    | some hb => some ⟨kv.1, kv.2.name, hb.name⟩
    | none => none
  let onlyA := (holidaysAMap.filter fun kv => !(jsMapHas holidaysBMap kv.1)).map Prod.snd
  let onlyB := (holidaysBMap.filter fun kv => !(jsMapHas holidaysAMap kv.1)).map Prod.snd
  ⟨common, onlyA, onlyB⟩

/-- Grouping of resolved statuses by `utc_offset` string: for each status
in order, append its zone to the bucket of its offset. -/
def groupByOffset (statuses : List ZoneStatus) : List (String × List String) :=
  statuses.foldl
    (fun m s => jsMapSet m s.utc_offset ((jsMapGet m s.utc_offset).getD [] ++ [s.zone]))
    []

/-- The offset-overlap detector: one `OffsetOverlap` per offset of side A
that side B also has, carrying both buckets; `hasOverlap` is
`overlaps.length > 0`. -/
def compareOffsets (validStatusesA validStatusesB : List ZoneStatus) : CommonOffsetNow :=
  let offsetMapA := groupByOffset validStatusesA
  let offsetMapB := groupByOffset validStatusesB
  let overlaps := offsetMapA.filterMap fun kv =>
    match jsMapGet offsetMapB kv.1 with
    | some zonesB => some (⟨kv.1, kv.2, zonesB⟩ : OffsetOverlap)
    | none => none
  ⟨decide (overlaps.length > 0), overlaps⟩

/-- Model of `compareCountries(countryA, countryB, year)`.  The awaited
sub-results are parameters: `holidaysA`/`holidaysB` are what the two
`getHolidays` calls resolved to, and `statusOf z` is what
`getZoneStatus(z)` resolved to (`none` for an absent status, which the
engine filters out). -/
def compareCountries (countryA countryB : String) (year : Nat)
    (holidaysA holidaysB : List Holiday)
    (statusOf : String → Option ZoneStatus) : ComparisonResult :=
  let zonesA := getTimezones countryA
  let zonesB := getTimezones countryB
  let validStatusesA := (zonesA.map statusOf).filterMap id
  let validStatusesB := (zonesB.map statusOf).filterMap id
  { inputs := ⟨countryA, countryB, year⟩
    holidays := compareHolidays holidaysA holidaysB
    timezones := ⟨validStatusesA, validStatusesB,
      compareOffsets validStatusesA validStatusesB⟩ }

theorem isSome_jsMapGet (m : List (String × α)) (k : String) :
    (jsMapGet m k).isSome = jsMapHas m k := by
  induction m with
  | nil => rfl
  | cons kv t ih =>
    by_cases h : kv.1 = k <;> simp [jsMapGet, jsMapHas, h, ih]

theorem jsMapHas_iff_mem (m : List (String × α)) (k : String) :
    jsMapHas m k = true ↔ k ∈ m.map Prod.fst := by
  induction m with
  | nil => simp [jsMapHas]
  | cons kv t ih =>
    by_cases h : kv.1 = k <;> simp [jsMapHas, h, ih, eq_comm (a := k)]

theorem keys_jsMapSet (m : List (String × α)) (k : String) (v : α) :
    (jsMapSet m k v).map Prod.fst =
      if jsMapHas m k then m.map Prod.fst else m.map Prod.fst ++ [k] := by
  unfold jsMapSet
  by_cases h : jsMapHas m k = true
  · simp only [h, if_true]
    rw [List.map_map]
    apply List.map_congr_left
    intro kv _
    by_cases hk : kv.1 = k <;> simp [hk]
  · simp only [Bool.not_eq_true] at h
    simp [h]

theorem nodup_keys_jsMapSet (m : List (String × α)) (k : String) (v : α)
    (h : (m.map Prod.fst).Nodup) : ((jsMapSet m k v).map Prod.fst).Nodup := by
  rw [keys_jsMapSet]
  by_cases hk : jsMapHas m k = true
  · simpa [hk] using h
  · have hk' : jsMapHas m k = false := by
      cases hb : jsMapHas m k
      · rfl
      · exact absurd hb hk
    have hnotmem : k ∉ m.map Prod.fst := fun hm =>
      hk ((jsMapHas_iff_mem m k).mpr hm)
    simp [hk', List.nodup_append, h, hnotmem]

theorem jsMapGet_jsMapSet_self (m : List (String × α)) (k : String) (v : α) :
    jsMapGet (jsMapSet m k v) k = some v := by
  unfold jsMapSet
  by_cases hk : jsMapHas m k = true
  · simp only [hk, if_true]
    induction m with
    | nil => simp [jsMapHas] at hk
    | cons kv t ih =>
      by_cases h1 : kv.1 = k
      · simp [jsMapGet, h1]
      · simp only [List.map_cons, if_neg h1]
        simp only [jsMapGet, if_neg h1]
        simp only [jsMapHas, h1, decide_False, Bool.false_or] at hk
        exact ih hk
  · have hk' : jsMapHas m k = false := by
      cases hb : jsMapHas m k
      · rfl
      · exact absurd hb hk
    simp only [hk', Bool.false_eq_true, if_false]
    clear hk
    induction m with
    | nil => simp [jsMapGet]
    | cons kv t ih =>
      simp only [jsMapHas, Bool.or_eq_false_iff, decide_eq_false_iff_not] at hk'
      simp only [List.cons_append, jsMapGet, if_neg hk'.1]
      exact ih hk'.2

theorem jsMapGet_append_single_ne (m : List (String × α)) (k k' : String) (v : α)
    (hne : k' ≠ k) : jsMapGet (m ++ [(k, v)]) k' = jsMapGet m k' := by
  induction m with
  | nil =>
    simp only [List.nil_append, jsMapGet, if_neg (fun h : k = k' => hne h.symm)]
  | cons kv t ih =>
    simp only [List.cons_append, jsMapGet]
    by_cases h : kv.1 = k' <;> simp [h, ih]

theorem jsMapGet_replace_ne (m : List (String × α)) (k k' : String) (v : α)
    (hne : k' ≠ k) :
    jsMapGet (m.map (fun kv => if kv.1 = k then (k, v) else kv)) k' = jsMapGet m k' := by
  induction m with
  | nil => rfl
  | cons kv t ih =>
    by_cases h1 : kv.1 = k
    · have h2 : kv.1 ≠ k' := by rw [h1]; exact fun h => hne h.symm
      simp only [List.map_cons, if_pos h1, jsMapGet,
        if_neg (fun h : k = k' => hne h.symm), if_neg h2]
      exact ih
    · simp only [List.map_cons, if_neg h1, jsMapGet]
      by_cases h2 : kv.1 = k' <;> simp [h2, ih]

theorem jsMapGet_jsMapSet_ne (m : List (String × α)) (k k' : String) (v : α)
    (hne : k' ≠ k) : jsMapGet (jsMapSet m k v) k' = jsMapGet m k' := by
  unfold jsMapSet
  by_cases hk : jsMapHas m k = true
  · simp only [hk, if_true]
    exact jsMapGet_replace_ne m k k' v hne
  · simp only [Bool.not_eq_true] at hk
    simp only [hk, Bool.false_eq_true, if_false]
    exact jsMapGet_append_single_ne m k k' v hne

theorem jsMapGet_jsMapDelete_self (m : List (String × α)) (k : String) :
    jsMapGet (jsMapDelete m k) k = none := by
  induction m with
  | nil => rfl
  | cons kv t ih =>
    unfold jsMapDelete at ih ⊢
    rw [List.filter_cons]
    by_cases h : kv.1 = k
    · have hc : decide (kv.1 ≠ k) = false := by simp [h]
      rw [hc]
      simpa using ih
    · have hc : decide (kv.1 ≠ k) = true := by simp [h]
      rw [hc]
      simp only [if_true]
      rw [jsMapGet, if_neg h]
      exact ih

/-! ### Supporting lemmas about the JS map model -/

theorem jsMapHas_jsMapSet (m : List (String × α)) (k0 k : String) (v : α) :
    jsMapHas (jsMapSet m k0 v) k = (jsMapHas m k || decide (k0 = k)) := by
  rw [Bool.eq_iff_iff, jsMapHas_iff_mem, keys_jsMapSet]
  by_cases h : jsMapHas m k0 = true
  · simp only [h, if_true, Bool.or_eq_true, decide_eq_true_eq, ← jsMapHas_iff_mem]
    constructor
    · exact Or.inl
    · rintro (h1 | rfl)
      · exact h1
      · exact h
  · simp only [Bool.not_eq_true] at h
    simp only [h, Bool.false_eq_true, if_false, List.mem_append, List.mem_singleton,
      Bool.or_eq_true, decide_eq_true_eq, ← jsMapHas_iff_mem]
    constructor
    · rintro (h1 | rfl)
      · exact Or.inl h1
      · exact Or.inr rfl
    · rintro (h1 | rfl)
      · exact Or.inl h1
      · exact Or.inr rfl

theorem jsMapHas_foldl_set (l : List (String × α)) :
    ∀ (m : List (String × α)) (k : String),
      jsMapHas (l.foldl (fun m kv => jsMapSet m kv.1 kv.2) m) k
        = (jsMapHas m k || l.any (fun kv => decide (kv.1 = k))) := by
  induction l with
  | nil => intro m k; simp
  | cons kv t ih =>
    intro m k
    rw [List.foldl_cons, ih, jsMapHas_jsMapSet]
    simp [Bool.or_assoc]

theorem jsMapHas_jsMapOfList (l : List (String × α)) (k : String) :
    jsMapHas (jsMapOfList l) k = l.any (fun kv => decide (kv.1 = k)) := by
  have h := jsMapHas_foldl_set l [] k
  simpa [jsMapOfList, jsMapHas] using h

theorem mem_keys_jsMapOfList (l : List (String × α)) (k : String) :
    k ∈ (jsMapOfList l).map Prod.fst ↔ k ∈ l.map Prod.fst := by
  rw [← jsMapHas_iff_mem, jsMapHas_jsMapOfList]
  simp [List.any_eq_true, List.mem_map]

theorem nodup_keys_foldl_set (l : List (String × α)) :
    ∀ m : List (String × α), (m.map Prod.fst).Nodup →
      ((l.foldl (fun m kv => jsMapSet m kv.1 kv.2) m).map Prod.fst).Nodup := by
  induction l with
  | nil => intro m h; simpa using h
  | cons kv t ih =>
    intro m h
    rw [List.foldl_cons]
    exact ih _ (nodup_keys_jsMapSet m kv.1 kv.2 h)

theorem nodup_keys_jsMapOfList (l : List (String × α)) :
    ((jsMapOfList l).map Prod.fst).Nodup :=
  nodup_keys_foldl_set l [] (by simp)

theorem mem_jsMapSet (m : List (String × α)) (k : String) (v : α) (kv : String × α)
    (h : kv ∈ jsMapSet m k v) : kv ∈ m ∨ kv = (k, v) := by
  unfold jsMapSet at h
  by_cases hk : jsMapHas m k = true
  · simp only [hk, if_true] at h
    rcases List.mem_map.mp h with ⟨kw, hmem, heq⟩
    by_cases h1 : kw.1 = k
    · right
      rw [← heq, if_pos h1]
    · left
      rw [← heq, if_neg h1]
      exact hmem
  · simp only [Bool.not_eq_true] at hk
    simp only [hk, Bool.false_eq_true, if_false] at h
    rcases List.mem_append.mp h with h1 | h2
    · exact Or.inl h1
    · exact Or.inr (List.mem_singleton.mp h2)

theorem mem_foldl_set (l : List (String × α)) :
    ∀ (m : List (String × α)) (kv : String × α),
      kv ∈ l.foldl (fun m kv => jsMapSet m kv.1 kv.2) m → kv ∈ m ∨ kv ∈ l := by
  induction l with
  | nil => intro m kv h; exact Or.inl h
  | cons kw t ih =>
    intro m kv h
    rw [List.foldl_cons] at h
    rcases ih _ kv h with h1 | h2
    · rcases mem_jsMapSet m kw.1 kw.2 kv h1 with h3 | h4
      · exact Or.inl h3
      · right
        rw [h4]
        exact List.mem_cons_self _ _
    · exact Or.inr (List.mem_cons_of_mem _ h2)

theorem mem_jsMapOfList (l : List (String × α)) (kv : String × α)
    (h : kv ∈ jsMapOfList l) : kv ∈ l := by
  rcases mem_foldl_set l [] kv h with h1 | h2
  · cases h1
  · exact h2

theorem jsMapGet_of_mem_nodup (m : List (String × α)) (kv : String × α)
    (hnd : (m.map Prod.fst).Nodup) (h : kv ∈ m) : jsMapGet m kv.1 = some kv.2 := by
  induction m with
  | nil => cases h
  | cons kw t ih =>
    simp only [List.map_cons, List.nodup_cons] at hnd
    rcases List.mem_cons.mp h with rfl | hmem
    · simp [jsMapGet]
    · have hne : kw.1 ≠ kv.1 := by
        intro he
        exact hnd.1 (he ▸ List.mem_map.mpr ⟨kv, hmem, rfl⟩)
      rw [jsMapGet, if_neg hne]
      exact ih hnd.2 hmem

theorem length_filter_add_length_filter_not {γ : Type u} (l : List γ) (p : γ → Bool) :
    (l.filter p).length + (l.filter (fun x => !(p x))).length = l.length := by
  induction l with
  | nil => rfl
  | cons x t ih =>
    rw [List.filter_cons, List.filter_cons]
    cases hp : p x <;> simp [hp] <;> omega

/-! ### Supporting lemmas about the fetcher and the groupings -/

theorem fetchWithRetry_ok0 {ε σ : Type u} (attempt : Nat → Except ε σ) (v : σ)
    (h0 : attempt 0 = Except.ok v) :
    fetchWithRetry attempt = ⟨Except.ok v, 1, []⟩ := by
  simp [fetchWithRetry, retryGo, h0]

theorem fetchWithRetry_ok1 {ε σ : Type u} (attempt : Nat → Except ε σ) (e0 : ε) (v : σ)
    (h0 : attempt 0 = Except.error e0) (h1 : attempt 1 = Except.ok v) :
    fetchWithRetry attempt = ⟨Except.ok v, 2, [1000]⟩ := by
  simp [fetchWithRetry, retryGo, h0, h1]

theorem fetchWithRetry_ok2 {ε σ : Type u} (attempt : Nat → Except ε σ) (e0 e1 : ε) (v : σ)
    (h0 : attempt 0 = Except.error e0) (h1 : attempt 1 = Except.error e1)
    (h2 : attempt 2 = Except.ok v) :
    fetchWithRetry attempt = ⟨Except.ok v, 3, [1000, 2000]⟩ := by
  simp [fetchWithRetry, retryGo, h0, h1, h2]

theorem fetchWithRetry_err {ε σ : Type u} (attempt : Nat → Except ε σ) (e0 e1 e2 : ε)
    (h0 : attempt 0 = Except.error e0) (h1 : attempt 1 = Except.error e1)
    (h2 : attempt 2 = Except.error e2) :
    fetchWithRetry attempt = ⟨Except.error e2, 3, [1000, 2000]⟩ := by
  simp [fetchWithRetry, retryGo, h0, h1, h2]

theorem groupByOffset_get_aux (l : List ZoneStatus) :
    ∀ (m : List (String × List String)) (off : String),
      jsMapGet
          (l.foldl
            (fun m s => jsMapSet m s.utc_offset ((jsMapGet m s.utc_offset).getD [] ++ [s.zone]))
            m) off
        = if ((jsMapGet m off).isSome || l.any (fun s => decide (s.utc_offset = off)))
          then some ((jsMapGet m off).getD []
              ++ (l.filter (fun s => decide (s.utc_offset = off))).map ZoneStatus.zone)
          else none := by
  induction l with
  | nil =>
    intro m off
    cases hg : jsMapGet m off <;> simp [hg]
  | cons s t ih =>
    intro m off
    rw [List.foldl_cons, ih]
    by_cases hoff : s.utc_offset = off
    · subst hoff
      rw [jsMapGet_jsMapSet_self]
      rw [List.filter_cons, List.any_cons]
      cases hg : jsMapGet m s.utc_offset <;>
        simp [hg, List.append_assoc]
    · have hne : off ≠ s.utc_offset := fun h => hoff h.symm
      rw [jsMapGet_jsMapSet_ne _ _ _ _ hne, List.filter_cons, List.any_cons]
      simp [hoff]

theorem groupByOffset_get (l : List ZoneStatus) (off : String) :
    jsMapGet (groupByOffset l) off
      = if l.any (fun s => decide (s.utc_offset = off))
        then some ((l.filter (fun s => decide (s.utc_offset = off))).map ZoneStatus.zone)
        else none := by
  have h := groupByOffset_get_aux l [] off
  simpa [groupByOffset, jsMapGet] using h

theorem nodup_keys_groupByOffset_aux (l : List ZoneStatus) :
    ∀ m : List (String × List String), (m.map Prod.fst).Nodup →
      (((l.foldl
          (fun m s => jsMapSet m s.utc_offset ((jsMapGet m s.utc_offset).getD [] ++ [s.zone]))
          m)).map Prod.fst).Nodup := by
  induction l with
  | nil => intro m h; simpa using h
  | cons s t ih =>
    intro m h
    rw [List.foldl_cons]
    exact ih _ (nodup_keys_jsMapSet m s.utc_offset _ h)

theorem nodup_keys_groupByOffset (l : List ZoneStatus) :
    ((groupByOffset l).map Prod.fst).Nodup :=
  nodup_keys_groupByOffset_aux l [] (by simp)

theorem mem_keys_groupByOffset (l : List ZoneStatus) (off : String) :
    off ∈ (groupByOffset l).map Prod.fst ↔ off ∈ l.map ZoneStatus.utc_offset := by
  have hsome : (jsMapGet (groupByOffset l) off).isSome
      = l.any (fun s => decide (s.utc_offset = off)) := by
    rw [groupByOffset_get]
    by_cases h : l.any (fun s => decide (s.utc_offset = off)) = true <;> simp [h]
  rw [← jsMapHas_iff_mem, ← isSome_jsMapGet, hsome]
  simp [List.any_eq_true, List.mem_map]

/-! ### Supporting lemmas about the holiday merge -/

theorem dateKey_of_mem (hs : List Holiday) (kv : String × Holiday)
    (h : kv ∈ jsMapOfList (hs.map fun h => (h.date, h))) : kv.2.date = kv.1 := by
  have hmem := mem_jsMapOfList _ kv h
  rcases List.mem_map.mp hmem with ⟨hh, _, heq⟩
  rw [← heq]

theorem keys_holidayMap (hs : List Holiday) (d : String) :
    d ∈ (jsMapOfList (hs.map fun h => (h.date, h))).map Prod.fst
      ↔ d ∈ hs.map Holiday.date := by
  rw [mem_keys_jsMapOfList, List.map_map]
  exact Iff.rfl

theorem compareHolidays_common_dates (holidaysA holidaysB : List Holiday) :
    (compareHolidays holidaysA holidaysB).common.map CommonHoliday.date
      = ((jsMapOfList (holidaysA.map fun h => (h.date, h))).filter
          (fun kv =>
            (jsMapGet (jsMapOfList (holidaysB.map fun h => (h.date, h))) kv.1).isSome)).map
          Prod.fst := by
  show ((jsMapOfList (holidaysA.map fun h => (h.date, h))).filterMap fun kv =>
      match jsMapGet (jsMapOfList (holidaysB.map fun h => (h.date, h))) kv.1 with
      | some hb => some ⟨kv.1, kv.2.name, hb.name⟩
      | none => none).map CommonHoliday.date = _
  generalize jsMapOfList (holidaysB.map fun h => (h.date, h)) = mB
  generalize jsMapOfList (holidaysA.map fun h => (h.date, h)) = mA
  induction mA with
  | nil => rfl
  | cons kv t ih =>
    rw [List.filterMap_cons, List.filter_cons]
    cases hg : jsMapGet mB kv.1 <;> simp [hg, ih]

theorem compareHolidays_onlyA_dates (holidaysA holidaysB : List Holiday) :
    (compareHolidays holidaysA holidaysB).onlyA.map Holiday.date
      = ((jsMapOfList (holidaysA.map fun h => (h.date, h))).filter
          (fun kv =>
            !(jsMapHas (jsMapOfList (holidaysB.map fun h => (h.date, h))) kv.1))).map
          Prod.fst := by
  show (((jsMapOfList (holidaysA.map fun h => (h.date, h))).filter
      (fun kv =>
        !(jsMapHas (jsMapOfList (holidaysB.map fun h => (h.date, h))) kv.1))).map
      Prod.snd).map Holiday.date = _
  rw [List.map_map]
  apply List.map_congr_left
  intro kv hkv
  exact dateKey_of_mem holidaysA kv (List.mem_of_mem_filter hkv)

theorem compareHolidays_onlyB_dates (holidaysA holidaysB : List Holiday) :
    (compareHolidays holidaysA holidaysB).onlyB.map Holiday.date
      = ((jsMapOfList (holidaysB.map fun h => (h.date, h))).filter
          (fun kv =>
            !(jsMapHas (jsMapOfList (holidaysA.map fun h => (h.date, h))) kv.1))).map
          Prod.fst := by
  show (((jsMapOfList (holidaysB.map fun h => (h.date, h))).filter
      (fun kv =>
        !(jsMapHas (jsMapOfList (holidaysA.map fun h => (h.date, h))) kv.1))).map
      Prod.snd).map Holiday.date = _
  rw [List.map_map]
  apply List.map_congr_left
  intro kv hkv
  exact dateKey_of_mem holidaysB kv (List.mem_of_mem_filter hkv)

theorem length_holidayMap (hs : List Holiday) :
    (jsMapOfList (hs.map fun h => (h.date, h))).length
      = (hs.map Holiday.date).dedup.length := by
  have hlen : (jsMapOfList (hs.map fun h => (h.date, h))).length
      = ((jsMapOfList (hs.map fun h => (h.date, h))).map Prod.fst).length :=
    (List.length_map _ _).symm
  rw [hlen]
  apply List.Perm.length_eq
  rw [List.perm_ext_iff_of_nodup (nodup_keys_jsMapOfList _) (List.nodup_dedup _)]
  intro d
  rw [List.mem_dedup]
  exact keys_holidayMap hs d

/-! ### Claim theorems -/

/-- Claim C3: for every oracle, `fetchWithRetry` makes at most 3 attempts
(the initial attempt plus 2 retries); the backoff slept after failed
attempt `i` is `1000 * (i + 1)` ms, so 1 s then 2 s; every failure kind is
treated uniformly (any `Except.error`); when all attempts fail the last
observed error is propagated, and a successful attempt returns the decoded
body immediately with no further attempts. -/
theorem fetchWithRetry_policy {ε σ : Type u} (attempt : Nat → Except ε σ) :
    (fetchWithRetry attempt).numAttempts ≤ 3
    ∧ (fetchWithRetry attempt).delays
        = (List.range ((fetchWithRetry attempt).numAttempts - 1)).map (fun i => 1000 * (i + 1))
    ∧ (∀ v, attempt 0 = Except.ok v → fetchWithRetry attempt = ⟨Except.ok v, 1, []⟩)
    ∧ (∀ e0 v, attempt 0 = Except.error e0 → attempt 1 = Except.ok v →
        fetchWithRetry attempt = ⟨Except.ok v, 2, [1000]⟩)
    ∧ (∀ e0 e1 v, attempt 0 = Except.error e0 → attempt 1 = Except.error e1 →
        attempt 2 = Except.ok v → fetchWithRetry attempt = ⟨Except.ok v, 3, [1000, 2000]⟩)
    ∧ (∀ e0 e1 e2, attempt 0 = Except.error e0 → attempt 1 = Except.error e1 →
        attempt 2 = Except.error e2 →
        fetchWithRetry attempt = ⟨Except.error e2, 3, [1000, 2000]⟩) := by
  cases h0 : attempt 0 with
  | ok v0 =>
    have hr := fetchWithRetry_ok0 attempt v0 h0
    refine ⟨by rw [hr]; show (1 : Nat) ≤ 3; decide, by rw [hr]; rfl, ?_, ?_, ?_, ?_⟩
    · intro v h
      injection h with hv
      subst hv
      exact hr
    · intro e0 v h _
      exact Except.noConfusion h
    · intro e0 e1 v h _ _
      exact Except.noConfusion h
    · intro e0 e1 e2 h _ _
      exact Except.noConfusion h
  | error e0 =>
    cases h1 : attempt 1 with
    | ok v1 =>
      have hr := fetchWithRetry_ok1 attempt e0 v1 h0 h1
      refine ⟨by rw [hr]; show (2 : Nat) ≤ 3; decide, by rw [hr]; rfl, ?_, ?_, ?_, ?_⟩
      · intro v h
        exact Except.noConfusion h
      · intro e0' v _ h'
        injection h' with hv
        subst hv
        exact hr
      · intro e0' e1' v _ h' _
        exact Except.noConfusion h'
      · intro e0' e1' e2' _ h' _
        exact Except.noConfusion h'
    | error e1 =>
      cases h2 : attempt 2 with
      | ok v2 =>
        have hr := fetchWithRetry_ok2 attempt e0 e1 v2 h0 h1 h2
        refine ⟨by rw [hr], by rw [hr]; rfl, ?_, ?_, ?_, ?_⟩
        · intro v h
          exact Except.noConfusion h
        · intro e0' v _ h'
          exact Except.noConfusion h'
        · intro e0' e1' v _ _ h'
          injection h' with hv
          subst hv
          exact hr
        · intro e0' e1' e2' _ _ h'
          exact Except.noConfusion h'
      | error e2 =>
        have hr := fetchWithRetry_err attempt e0 e1 e2 h0 h1 h2
        refine ⟨by rw [hr], by rw [hr]; rfl, ?_, ?_, ?_, ?_⟩
        · intro v h
          exact Except.noConfusion h
        · intro e0' v _ h'
          exact Except.noConfusion h'
        · intro e0' e1' v _ _ h'
          exact Except.noConfusion h'
        · intro e0' e1' e2' _ _ h'
          injection h' with he
          subst he
          exact hr

/-- Witness for C3: the spec scenario — two HTTP 503 failures followed by
a success yields the successful payload after backoffs of 1 s and 2 s. -/
theorem fetchWithRetry_policy_witness :
    fetchWithRetry (fun i => if i < 2 then Except.error "HTTP 503" else Except.ok (42 : Nat))
      = ⟨Except.ok 42, 3, [1000, 2000]⟩ :=
  (fetchWithRetry_policy
      (fun i => if i < 2 then Except.error "HTTP 503" else Except.ok (42 : Nat))).2.2.2.2.1
    "HTTP 503" "HTTP 503" 42 rfl rfl rfl

/-- Claim C6: a `setCache` immediately followed by `getFromCache` on the
same key within the TTL returns the stored value unchanged; once the TTL
has elapsed the lookup misses and removes the expired entry from the
cache as part of the lookup. -/
theorem cache_roundtrip {γ : Type u} (c : Cache γ) (k : String) (v : γ) (ttl t1 t2 : Nat) :
    (t2 - t1 ≤ ttl → (getFromCache (setCache c k v t1) k ttl t2).1 = some v)
    ∧ (t2 - t1 > ttl →
        (getFromCache (setCache c k v t1) k ttl t2).1 = none
        ∧ jsMapGet (getFromCache (setCache c k v t1) k ttl t2).2 k = none) := by
  have hget : jsMapGet (setCache c k v t1) k = some ⟨v, t1⟩ :=
    jsMapGet_jsMapSet_self c k ⟨v, t1⟩
  constructor
  · intro h
    simp [getFromCache, hget, Nat.not_lt.mpr h]
  · intro h
    constructor
    · simp [getFromCache, hget, h]
    · simp only [getFromCache, hget, h, if_pos]
      exact jsMapGet_jsMapDelete_self _ k

/-- Witness for C6 at a concrete key, value, TTL and clock. -/
theorem cache_roundtrip_witness :
    (getFromCache (setCache ([] : Cache Nat) "k" 42 0) "k" 100 5).1 = some 42
    ∧ (getFromCache (setCache ([] : Cache Nat) "k" 42 0) "k" 100 200).1 = none := by
  have h1 := (cache_roundtrip ([] : Cache Nat) "k" 42 100 0 5).1 (by decide)
  have h2 := (cache_roundtrip ([] : Cache Nat) "k" 42 100 0 200).2 (by decide)
  exact ⟨h1, h2.1⟩

/-- Claim C4: `getHolidays` never fails outward — on a cache miss followed
by total provider failure (every retry attempt errors) it returns the
empty list instead of propagating an error. -/
theorem getHolidays_total_failure_empty (countryCode : String) (year : Nat)
    (attempt : Nat → Except String (List RawHoliday))
    (cache : Cache (List Holiday)) (now : Nat)
    (hmiss : (getFromCache cache (getCacheKey "holidays" [countryCode, toString year])
        CACHE_TTL_HOLIDAYS now).1 = none)
    (hfail : ∀ i, i ≤ 2 → ∃ e, attempt i = Except.error e) :
    (getHolidays countryCode year attempt cache now).1 = [] := by
  obtain ⟨e0, h0⟩ := hfail 0 (by decide)
  obtain ⟨e1, h1⟩ := hfail 1 (by decide)
  obtain ⟨e2, h2⟩ := hfail 2 (by decide)
  have hr := fetchWithRetry_err attempt e0 e1 e2 h0 h1 h2
  simp [getHolidays, hmiss, hr]

/-- Witness for C4: the spec scenario `getHolidays("XX", 2025)` with both
the cache empty and every upstream attempt failing returns `[]`. -/
theorem getHolidays_total_failure_empty_witness :
    (getHolidays "XX" 2025 (fun _ => Except.error "HTTP 503") [] 0).1 = [] :=
  getHolidays_total_failure_empty "XX" 2025 (fun _ => Except.error "HTTP 503") [] 0 rfl
    (fun _ _ => ⟨"HTTP 503", rfl⟩)

/-- Claim C5 (code evidence): on a cache miss with the primary source
failing every attempt, `getHolidays` returns `[]` after exactly one
invocation of the resilient fetcher — no secondary-provider request of
any kind is made before returning, contrary to the documented
Calendarific fallback. -/
theorem getHolidays_no_secondary_provider :
    getHolidays "XX" 2025 (fun _ => Except.error "HTTP 503") [] 0 = ([], [], 1) := rfl

/-- Claim C7 counterexample: with an always-failing upstream, two
`getHolidays` calls for the same country and year within the TTL window
invoke the resilient fetcher twice — the failed first call caches
nothing, so the second call is not served from the cache. -/
theorem getHolidays_second_call_refetches :
    (getHolidays "US" 2025 (fun _ => Except.error "down") [] 0).2.2
      + (getHolidays "US" 2025 (fun _ => Except.error "down")
          (getHolidays "US" 2025 (fun _ => Except.error "down") [] 0).2.1 1000).2.2 = 2 := rfl

/-- Claim C7 (amended): when the first call's upstream fetch succeeds, a
second `getHolidays` call for the same country and year within the
24-hour TTL window is served from the cache — it invokes the fetcher
zero times and returns the same list, so the pair of calls issues exactly
one upstream fetch. -/
theorem getHolidays_idempotent_within_ttl (countryCode : String) (year : Nat)
    (attempt : Nat → Except String (List RawHoliday))
    (cache : Cache (List Holiday)) (t1 t2 : Nat) (data : List RawHoliday)
    (hmiss : (getFromCache cache (getCacheKey "holidays" [countryCode, toString year])
        CACHE_TTL_HOLIDAYS t1).1 = none)
    (hok : (fetchWithRetry attempt).result = Except.ok data)
    (httl : t2 - t1 ≤ CACHE_TTL_HOLIDAYS) :
    (getHolidays countryCode year attempt cache t1).2.2 = 1
    ∧ (getHolidays countryCode year attempt
        (getHolidays countryCode year attempt cache t1).2.1 t2).2.2 = 0
    ∧ (getHolidays countryCode year attempt
        (getHolidays countryCode year attempt cache t1).2.1 t2).1
      = (getHolidays countryCode year attempt cache t1).1 := by
  have hr1 : getHolidays countryCode year attempt cache t1
      = (data.map normalizeHoliday,
         setCache
           (getFromCache cache (getCacheKey "holidays" [countryCode, toString year])
             CACHE_TTL_HOLIDAYS t1).2
           (getCacheKey "holidays" [countryCode, toString year]) (data.map normalizeHoliday) t1,
         1) := by
    simp [getHolidays, hmiss, hok]
  have hget2 : (getFromCache
      (setCache
        (getFromCache cache (getCacheKey "holidays" [countryCode, toString year])
          CACHE_TTL_HOLIDAYS t1).2
        (getCacheKey "holidays" [countryCode, toString year]) (data.map normalizeHoliday) t1)
      (getCacheKey "holidays" [countryCode, toString year]) CACHE_TTL_HOLIDAYS t2)
      = (some (data.map normalizeHoliday),
         setCache
           (getFromCache cache (getCacheKey "holidays" [countryCode, toString year])
             CACHE_TTL_HOLIDAYS t1).2
           (getCacheKey "holidays" [countryCode, toString year]) (data.map normalizeHoliday) t1) := by
    unfold getFromCache setCache
    rw [jsMapGet_jsMapSet_self]
    simp [Nat.not_lt.mpr httl]
  refine ⟨by rw [hr1], ?_, ?_⟩
  · rw [hr1]
    simp [getHolidays, hget2]
  · rw [hr1]
    simp [getHolidays, hget2]

/-- Witness for the amended C7 at a concrete country, year and payload. -/
theorem getHolidays_idempotent_within_ttl_witness :
    (getHolidays "US" 2025 (fun _ => Except.ok [⟨"2025-01-01", "NY", none, none⟩]) [] 0).2.2 = 1
    ∧ (getHolidays "US" 2025 (fun _ => Except.ok [⟨"2025-01-01", "NY", none, none⟩])
        (getHolidays "US" 2025 (fun _ => Except.ok [⟨"2025-01-01", "NY", none, none⟩]) [] 0).2.1
        1000).2.2 = 0 := by
  have h := getHolidays_idempotent_within_ttl "US" 2025
    (fun _ => Except.ok [⟨"2025-01-01", "NY", none, none⟩]) [] 0 1000
    [⟨"2025-01-01", "NY", none, none⟩] rfl rfl (by decide)
  exact ⟨h.1, h.2.1⟩

theorem stripGMT_gmt_append (t : String) : stripGMT ("GMT" ++ t) = t := by
  have hdata : ("GMT" ++ t).data = 'G' :: 'M' :: 'T' :: t.data := by
    cases t with
    | mk d => rfl
  unfold stripGMT
  rw [hdata]
  have hrem : removeFirst ('G' :: 'M' :: 'T' :: t.data) "GMT".data = t.data := by
    have hpat : "GMT".data = ['G', 'M', 'T'] := rfl
    rw [hpat]
    simp [removeFirst, startsWithChars]
  rw [hrem]

/-- Claim C8: on a cache miss with the live time-service failing every
attempt, `getZoneStatus` falls back to the local offset computation and
reports `dst = false` in that path; when the local computation also fails
(formatter throws or yields no offset part) it returns `none` rather than
an error, and `compareCountries` excludes such absent zones from the
timezone report. -/
theorem getZoneStatus_fallback (zone : String) (cache : Cache ZoneStatus) (now : Nat)
    (attempt : Nat → Except String LiveZoneData)
    (localFormat : Except String (Option String))
    (hmiss : (getFromCache cache (getCacheKey "zone" [zone]) CACHE_TTL_TIMEZONES now).1 = none)
    (hfail : ∀ i, i ≤ 2 → ∃ e, attempt i = Except.error e) :
    (∀ v, localFormat = Except.ok (some v) →
        (getZoneStatus zone cache now attempt localFormat).1 = some ⟨zone, stripGMT v, false⟩)
    ∧ (∀ e, localFormat = Except.error e →
        (getZoneStatus zone cache now attempt localFormat).1 = none)
    ∧ (localFormat = Except.ok none →
        (getZoneStatus zone cache now attempt localFormat).1 = none)
    ∧ (∀ countryA countryB year holidaysA holidaysB
          (statusOf : String → Option ZoneStatus),
        (compareCountries countryA countryB year holidaysA holidaysB statusOf).timezones.A
          = (getTimezones countryA).filterMap statusOf
        ∧ (compareCountries countryA countryB year holidaysA holidaysB statusOf).timezones.B
          = (getTimezones countryB).filterMap statusOf) := by
  obtain ⟨e0, h0⟩ := hfail 0 (by decide)
  obtain ⟨e1, h1⟩ := hfail 1 (by decide)
  obtain ⟨e2, h2⟩ := hfail 2 (by decide)
  have hr := fetchWithRetry_err attempt e0 e1 e2 h0 h1 h2
  refine ⟨?_, ?_, ?_, ?_⟩
  · intro v hv
    simp [getZoneStatus, hmiss, hr, hv]
  · intro e he
    simp [getZoneStatus, hmiss, hr, he]
  · intro hn
    simp [getZoneStatus, hmiss, hr, hn]
  · intro countryA countryB year holidaysA holidaysB statusOf
    constructor
    · show ((getTimezones countryA).map statusOf).filterMap id = _
      rw [List.filterMap_map]
      rfl
    · show ((getTimezones countryB).map statusOf).filterMap id = _
      rw [List.filterMap_map]
      rfl

/-- Witness for C8: the spec scenario — live service unreachable for
`America/Denver`, formatter yields `GMT-06:00`, result is the locally
computed offset with `dst = false`. -/
theorem getZoneStatus_fallback_witness :
    (getZoneStatus "America/Denver" [] 0 (fun _ => Except.error "down")
        (Except.ok (some "GMT-06:00"))).1 = some ⟨"America/Denver", "-06:00", false⟩ := by
  have h := (getZoneStatus_fallback "America/Denver" [] 0 (fun _ => Except.error "down")
      (Except.ok (some "GMT-06:00")) rfl (fun _ _ => ⟨"down", rfl⟩)).1 "GMT-06:00" rfl
  rw [h]
  rfl

/-- Claim C9 counterexample: in the local fallback path, a zone currently
at UTC+00:00 has formatter part value `"GMT"`, whose `GMT`-stripped form
is the empty string — `getZoneStatus` then returns `utc_offset = ""`,
which is not of the `±HH:MM` shape. -/
theorem getZoneStatus_zero_offset_not_hhmm :
    (getZoneStatus "Africa/Abidjan" [] 0 (fun _ => Except.error "down")
        (Except.ok (some "GMT"))).1 = some ⟨"Africa/Abidjan", "", false⟩
    ∧ isSignedHHMM "" = false := ⟨rfl, rfl⟩

/-- Claim C9 (amended): assume the live service honors its `±HH:MM`
contract and the runtime formatter produces `GMT±HH:MM` (or plain `GMT`
for a zero offset).  Then on a cache miss every `ZoneStatus` produced by
`getZoneStatus` has a `±HH:MM` `utc_offset`, except in the fallback path
for a zone currently at UTC+00:00, where `utc_offset` is the empty
string. -/
theorem getZoneStatus_offset_format (zone : String) (cache : Cache ZoneStatus) (now : Nat)
    (attempt : Nat → Except String LiveZoneData)
    (localFormat : Except String (Option String))
    (hmiss : (getFromCache cache (getCacheKey "zone" [zone]) CACHE_TTL_TIMEZONES now).1 = none)
    (hlive : ∀ d, (fetchWithRetry attempt).result = Except.ok d →
        isSignedHHMM d.utc_offset = true)
    (hfmt : ∀ v, localFormat = Except.ok (some v) →
        v = "GMT" ∨ ∃ t, v = "GMT" ++ t ∧ isSignedHHMM t = true) :
    ∀ zs, (getZoneStatus zone cache now attempt localFormat).1 = some zs →
      isSignedHHMM zs.utc_offset = true
      ∨ (zs.utc_offset = "" ∧ localFormat = Except.ok (some "GMT")) := by
  intro zs hzs
  cases hf : (fetchWithRetry attempt).result with
  | ok d =>
    have hres : (getZoneStatus zone cache now attempt localFormat).1
        = some ⟨d.timezone, d.utc_offset, d.dst.getD false⟩ := by
      simp [getZoneStatus, hmiss, hf]
    rw [hres] at hzs
    injection hzs with h
    subst h
    exact Or.inl (hlive d hf)
  | error e =>
    cases localFormat with
    | error e' =>
      have hres : (getZoneStatus zone cache now attempt (Except.error e')).1 = none := by
        simp [getZoneStatus, hmiss, hf]
      rw [hres] at hzs
      exact Option.noConfusion hzs
    | ok o =>
      cases o with
      | none =>
        have hres : (getZoneStatus zone cache now attempt (Except.ok none)).1 = none := by
          simp [getZoneStatus, hmiss, hf]
        rw [hres] at hzs
        exact Option.noConfusion hzs
      | some v =>
        have hres : (getZoneStatus zone cache now attempt (Except.ok (some v))).1
            = some ⟨zone, stripGMT v, false⟩ := by
          simp [getZoneStatus, hmiss, hf]
        rw [hres] at hzs
        injection hzs with h
        subst h
        rcases hfmt v rfl with rfl | ⟨t, rfl, ht⟩
        · exact Or.inr ⟨rfl, rfl⟩
        · refine Or.inl ?_
          show isSignedHHMM (stripGMT ("GMT" ++ t)) = true
          rw [stripGMT_gmt_append]
          exact ht

/-- Witness for the amended C9: the `America/Denver` fallback scenario
produces the `±HH:MM` offset `-06:00`. -/
theorem getZoneStatus_offset_format_witness :
    isSignedHHMM "-06:00" = true
    ∨ ("-06:00" = ""
        ∧ (Except.ok (some "GMT-06:00") : Except String (Option String))
            = Except.ok (some "GMT")) := by
  have h := getZoneStatus_offset_format "America/Denver" [] 0
    (fun _ => Except.error "down") (Except.ok (some "GMT-06:00")) rfl
    (fun d hd => by simp [fetchWithRetry, retryGo] at hd)
    (fun v hv => by
      injection hv with h1
      injection h1 with h2
      subst h2
      exact Or.inr ⟨"-06:00", rfl, rfl⟩)
    ⟨"America/Denver", "-06:00", false⟩ rfl
  exact h

/-- Claim C10: `getTimezones` is total — a country code absent from the
static table yields `[]` rather than a failure, and `compareCountries`
invoked with such a code produces an empty zone-status list for that side
and an empty overlap report with `hasOverlap = false`. -/
theorem getTimezones_total (countryCode : String)
    (h : jsMapGet COUNTRY_TIMEZONES countryCode = none) :
    getTimezones countryCode = []
    ∧ (∀ countryB year holidaysA holidaysB
          (statusOf : String → Option ZoneStatus),
        (compareCountries countryCode countryB year holidaysA holidaysB statusOf).timezones.A = []
        ∧ (compareCountries countryCode countryB year holidaysA holidaysB
            statusOf).timezones.commonOffsetNow.overlaps = []
        ∧ (compareCountries countryCode countryB year holidaysA holidaysB
            statusOf).timezones.commonOffsetNow.hasOverlap = false)
    ∧ (∀ countryA year holidaysA holidaysB
          (statusOf : String → Option ZoneStatus),
        (compareCountries countryA countryCode year holidaysA holidaysB statusOf).timezones.B = []
        ∧ (compareCountries countryA countryCode year holidaysA holidaysB
            statusOf).timezones.commonOffsetNow.overlaps = []
        ∧ (compareCountries countryA countryCode year holidaysA holidaysB
            statusOf).timezones.commonOffsetNow.hasOverlap = false) := by
  have hz : getTimezones countryCode = [] := by
    simp [getTimezones, h]
  refine ⟨hz, ?_, ?_⟩
  · intro countryB year holidaysA holidaysB statusOf
    have hov : (compareCountries countryCode countryB year holidaysA holidaysB
        statusOf).timezones.commonOffsetNow.overlaps = [] := by
      show (compareOffsets (((getTimezones countryCode).map statusOf).filterMap id)
          (((getTimezones countryB).map statusOf).filterMap id)).overlaps = []
      rw [hz]
      rfl
    refine ⟨?_, hov, ?_⟩
    · show ((getTimezones countryCode).map statusOf).filterMap id = []
      rw [hz]
      rfl
    · show decide (0 < (compareCountries countryCode countryB year holidaysA holidaysB
          statusOf).timezones.commonOffsetNow.overlaps.length) = false
      rw [hov]
      rfl
  · intro countryA year holidaysA holidaysB statusOf
    have hov : (compareCountries countryA countryCode year holidaysA holidaysB
        statusOf).timezones.commonOffsetNow.overlaps = [] := by
      show (compareOffsets (((getTimezones countryA).map statusOf).filterMap id)
          (((getTimezones countryCode).map statusOf).filterMap id)).overlaps = []
      rw [hz]
      apply List.filterMap_eq_nil_iff.mpr
      intro kv _
      rfl
    refine ⟨?_, hov, ?_⟩
    · show ((getTimezones countryCode).map statusOf).filterMap id = []
      rw [hz]
      rfl
    · show decide (0 < (compareCountries countryA countryCode year holidaysA holidaysB
          statusOf).timezones.commonOffsetNow.overlaps.length) = false
      rw [hov]
      rfl

/-- Witness for C10: `"XX"` is not in the static table; the comparison of
`"XX"` against Colombia reports no zones for side A and no overlap. -/
theorem getTimezones_total_witness :
    getTimezones "XX" = []
    ∧ (compareCountries "XX" "CO" 2025 [] [] (fun _ => none)).timezones.A = []
    ∧ (compareCountries "XX" "CO" 2025 [] []
        (fun _ => none)).timezones.commonOffsetNow.hasOverlap = false := by
  have h := getTimezones_total "XX" (by decide)
  have h2 := h.2.1 "CO" 2025 [] [] (fun _ => none)
  exact ⟨h.1, h2.1, h2.2.2⟩

theorem compareOffsets_overlaps_offsets (vA vB : List ZoneStatus) :
    (compareOffsets vA vB).overlaps.map OffsetOverlap.offset
      = ((groupByOffset vA).filter
          (fun kv => (jsMapGet (groupByOffset vB) kv.1).isSome)).map Prod.fst := by
  show ((groupByOffset vA).filterMap fun kv =>
      match jsMapGet (groupByOffset vB) kv.1 with
      | some zonesB => some (⟨kv.1, kv.2, zonesB⟩ : OffsetOverlap)
      | none => none).map OffsetOverlap.offset = _
  generalize groupByOffset vB = oB
  generalize groupByOffset vA = oA
  induction oA with
  | nil => rfl
  | cons kv t ih =>
    rw [List.filterMap_cons, List.filter_cons]
    cases hg : jsMapGet oB kv.1 <;> simp [hg, ih]

theorem compareOffsets_spec (vA vB : List ZoneStatus) :
    ((compareOffsets vA vB).overlaps.map OffsetOverlap.offset).Nodup
    ∧ (∀ off, off ∈ (compareOffsets vA vB).overlaps.map OffsetOverlap.offset ↔
        (off ∈ vA.map ZoneStatus.utc_offset ∧ off ∈ vB.map ZoneStatus.utc_offset))
    ∧ (∀ e, e ∈ (compareOffsets vA vB).overlaps →
        e.zonesA = (vA.filter (fun s => s.utc_offset = e.offset)).map ZoneStatus.zone
        ∧ e.zonesB = (vB.filter (fun s => s.utc_offset = e.offset)).map ZoneStatus.zone)
    ∧ ((compareOffsets vA vB).hasOverlap = true ↔ (compareOffsets vA vB).overlaps ≠ []) := by
  refine ⟨?_, ?_, ?_, ?_⟩
  · rw [compareOffsets_overlaps_offsets]
    exact (nodup_keys_groupByOffset vA).sublist
      ((List.filter_sublist _).map _)
  · intro off
    rw [compareOffsets_overlaps_offsets]
    constructor
    · intro hd
      rcases List.mem_map.mp hd with ⟨kv, hkv, heq⟩
      rcases List.mem_filter.mp hkv with ⟨hmA, hp⟩
      constructor
      · exact (mem_keys_groupByOffset vA off).mp
          (heq ▸ List.mem_map.mpr ⟨kv, hmA, rfl⟩)
      · have hhas : jsMapHas (groupByOffset vB) kv.1 = true := by
          rw [← isSome_jsMapGet]
          exact hp
        exact (mem_keys_groupByOffset vB off).mp
          (heq ▸ (jsMapHas_iff_mem _ _).mp hhas)
    · rintro ⟨h1, h2⟩
      have h1' := (mem_keys_groupByOffset vA off).mpr h1
      rcases List.mem_map.mp h1' with ⟨kv, hmA, heq⟩
      apply List.mem_map.mpr
      refine ⟨kv, List.mem_filter.mpr ⟨hmA, ?_⟩, heq⟩
      rw [isSome_jsMapGet, heq]
      exact (jsMapHas_iff_mem _ _).mpr ((mem_keys_groupByOffset vB off).mpr h2)
  · intro e he
    have he' : e ∈ (groupByOffset vA).filterMap fun kv =>
        match jsMapGet (groupByOffset vB) kv.1 with
        | some zonesB => some (⟨kv.1, kv.2, zonesB⟩ : OffsetOverlap)
        | none => none := he
    rcases List.mem_filterMap.mp he' with ⟨kv, hkv, hf⟩
    cases hg : jsMapGet (groupByOffset vB) kv.1 with
    | none =>
      rw [hg] at hf
      exact Option.noConfusion hf
    | some zsB =>
      rw [hg] at hf
      injection hf with hfe
      subst hfe
      have hkv2 : jsMapGet (groupByOffset vA) kv.1 = some kv.2 :=
        jsMapGet_of_mem_nodup _ kv (nodup_keys_groupByOffset vA) hkv
      rw [groupByOffset_get] at hkv2
      rw [groupByOffset_get] at hg
      by_cases hcA : vA.any (fun s => decide (s.utc_offset = kv.1)) = true
      · rw [if_pos hcA] at hkv2
        injection hkv2 with hkv2'
        by_cases hcB : vB.any (fun s => decide (s.utc_offset = kv.1)) = true
        · rw [if_pos hcB] at hg
          injection hg with hg'
          exact ⟨hkv2'.symm, hg'.symm⟩
        · rw [if_neg hcB] at hg
          exact Option.noConfusion hg
      · rw [if_neg hcA] at hkv2
        exact Option.noConfusion hkv2
  · show decide (0 < (compareOffsets vA vB).overlaps.length) = true
      ↔ (compareOffsets vA vB).overlaps ≠ []
    rw [decide_eq_true_eq]
    exact List.length_pos

/-- Claim C2: in every `ComparisonResult`, `overlaps` has exactly one
entry per offset string occurring in both sides' resolved statuses
(offsets on only one side are excluded and no offset key repeats), each
entry carries every resolved zone of each side having that offset, and
`hasOverlap` holds iff `overlaps` is non-empty. -/
theorem compareCountries_offset_overlaps (countryA countryB : String) (year : Nat)
    (holidaysA holidaysB : List Holiday) (statusOf : String → Option ZoneStatus) :
    (((compareCountries countryA countryB year holidaysA holidaysB
        statusOf).timezones.commonOffsetNow.overlaps.map OffsetOverlap.offset).Nodup)
    ∧ (∀ off, off ∈ (compareCountries countryA countryB year holidaysA holidaysB
          statusOf).timezones.commonOffsetNow.overlaps.map OffsetOverlap.offset ↔
        (off ∈ (compareCountries countryA countryB year holidaysA holidaysB
            statusOf).timezones.A.map ZoneStatus.utc_offset
          ∧ off ∈ (compareCountries countryA countryB year holidaysA holidaysB
            statusOf).timezones.B.map ZoneStatus.utc_offset))
    ∧ (∀ e, e ∈ (compareCountries countryA countryB year holidaysA holidaysB
          statusOf).timezones.commonOffsetNow.overlaps →
        e.zonesA = ((compareCountries countryA countryB year holidaysA holidaysB
            statusOf).timezones.A.filter
            (fun s => s.utc_offset = e.offset)).map ZoneStatus.zone
        ∧ e.zonesB = ((compareCountries countryA countryB year holidaysA holidaysB
            statusOf).timezones.B.filter
            (fun s => s.utc_offset = e.offset)).map ZoneStatus.zone)
    ∧ ((compareCountries countryA countryB year holidaysA holidaysB
          statusOf).timezones.commonOffsetNow.hasOverlap = true ↔
        (compareCountries countryA countryB year holidaysA holidaysB
          statusOf).timezones.commonOffsetNow.overlaps ≠ []) :=
  compareOffsets_spec (((getTimezones countryA).map statusOf).filterMap id)
    (((getTimezones countryB).map statusOf).filterMap id)

/-- Witness for C2 at concrete countries and a concrete status oracle. -/
theorem compareCountries_offset_overlaps_witness :
    (compareCountries "US" "CO" 2025 [] []
        (fun z => some ⟨z, "-05:00", false⟩)).timezones.commonOffsetNow.hasOverlap = true ↔
      (compareCountries "US" "CO" 2025 [] []
        (fun z => some ⟨z, "-05:00", false⟩)).timezones.commonOffsetNow.overlaps ≠ [] :=
  (compareCountries_offset_overlaps "US" "CO" 2025 [] []
    (fun z => some ⟨z, "-05:00", false⟩)).2.2.2

theorem length_filter_isSome_add (m mOther : List (String × Holiday)) :
    (m.filter (fun kv => (jsMapGet mOther kv.1).isSome)).length
      + (m.filter (fun kv => !(jsMapHas mOther kv.1))).length = m.length := by
  induction m with
  | nil => rfl
  | cons kv t ih =>
    rw [List.filter_cons, List.filter_cons, isSome_jsMapGet]
    cases hp : jsMapHas mOther kv.1 <;> simp [hp] <;> omega

theorem mem_map_fst_filter_isSome {γ : Type u} (m1 m2 : List (String × γ)) (d : String) :
    d ∈ (m1.filter (fun kv => (jsMapGet m2 kv.1).isSome)).map Prod.fst
      ↔ (d ∈ m1.map Prod.fst ∧ d ∈ m2.map Prod.fst) := by
  constructor
  · intro hd
    rcases List.mem_map.mp hd with ⟨kv, hkv, heq⟩
    rcases List.mem_filter.mp hkv with ⟨hm, hp⟩
    refine ⟨heq ▸ List.mem_map.mpr ⟨kv, hm, rfl⟩, ?_⟩
    rw [← jsMapHas_iff_mem, ← isSome_jsMapGet, ← heq]
    exact hp
  · rintro ⟨h1, h2⟩
    rcases List.mem_map.mp h1 with ⟨kv, hm, heq⟩
    apply List.mem_map.mpr
    refine ⟨kv, List.mem_filter.mpr ⟨hm, ?_⟩, heq⟩
    rw [isSome_jsMapGet, heq, jsMapHas_iff_mem]
    exact h2

theorem length_filter_isSome_comm {γ : Type u} (m1 m2 : List (String × γ))
    (h1 : (m1.map Prod.fst).Nodup) (h2 : (m2.map Prod.fst).Nodup) :
    (m1.filter (fun kv => (jsMapGet m2 kv.1).isSome)).length
      = (m2.filter (fun kv => (jsMapGet m1 kv.1).isSome)).length := by
  have e1 : ((m1.filter (fun kv => (jsMapGet m2 kv.1).isSome)).map Prod.fst).length
      = (m1.filter (fun kv => (jsMapGet m2 kv.1).isSome)).length := List.length_map _ _
  have e2 : ((m2.filter (fun kv => (jsMapGet m1 kv.1).isSome)).map Prod.fst).length
      = (m2.filter (fun kv => (jsMapGet m1 kv.1).isSome)).length := List.length_map _ _
  rw [← e1, ← e2]
  apply List.Perm.length_eq
  rw [List.perm_ext_iff_of_nodup (h1.sublist ((List.filter_sublist _).map _))
    (h2.sublist ((List.filter_sublist _).map _))]
  intro d
  rw [mem_map_fst_filter_isSome, mem_map_fst_filter_isSome]
  exact and_comm

/-- Claim C1: after deduplicating each side by date key, every date of
side A lands in exactly one of `common` (when also on side B) or `onlyA`
(when not), and symmetrically for B; hence
`common.length + onlyA.length` is the number of unique dates of side A
(symmetrically for B), and no date occurs both in `common` and in an
`only` list. -/
theorem compareCountries_holiday_partition (countryA countryB : String) (year : Nat)
    (holidaysA holidaysB : List Holiday) (statusOf : String → Option ZoneStatus) :
    ((compareCountries countryA countryB year holidaysA holidaysB
        statusOf).holidays.common.map CommonHoliday.date).Nodup
    ∧ ((compareCountries countryA countryB year holidaysA holidaysB
        statusOf).holidays.onlyA.map Holiday.date).Nodup
    ∧ ((compareCountries countryA countryB year holidaysA holidaysB
        statusOf).holidays.onlyB.map Holiday.date).Nodup
    ∧ (∀ d, d ∈ (compareCountries countryA countryB year holidaysA holidaysB
          statusOf).holidays.common.map CommonHoliday.date ↔
        (d ∈ holidaysA.map Holiday.date ∧ d ∈ holidaysB.map Holiday.date))
    ∧ (∀ d, d ∈ (compareCountries countryA countryB year holidaysA holidaysB
          statusOf).holidays.onlyA.map Holiday.date ↔
        (d ∈ holidaysA.map Holiday.date ∧ d ∉ holidaysB.map Holiday.date))
    ∧ (∀ d, d ∈ (compareCountries countryA countryB year holidaysA holidaysB
          statusOf).holidays.onlyB.map Holiday.date ↔
        (d ∈ holidaysB.map Holiday.date ∧ d ∉ holidaysA.map Holiday.date))
    ∧ (∀ d, ¬(d ∈ (compareCountries countryA countryB year holidaysA holidaysB
            statusOf).holidays.common.map CommonHoliday.date
        ∧ d ∈ (compareCountries countryA countryB year holidaysA holidaysB
            statusOf).holidays.onlyA.map Holiday.date))
    ∧ (∀ d, ¬(d ∈ (compareCountries countryA countryB year holidaysA holidaysB
            statusOf).holidays.common.map CommonHoliday.date
        ∧ d ∈ (compareCountries countryA countryB year holidaysA holidaysB
            statusOf).holidays.onlyB.map Holiday.date))
    ∧ (compareCountries countryA countryB year holidaysA holidaysB
          statusOf).holidays.common.length
        + (compareCountries countryA countryB year holidaysA holidaysB
          statusOf).holidays.onlyA.length
      = (holidaysA.map Holiday.date).dedup.length
    ∧ (compareCountries countryA countryB year holidaysA holidaysB
          statusOf).holidays.common.length
        + (compareCountries countryA countryB year holidaysA holidaysB
          statusOf).holidays.onlyB.length
      = (holidaysB.map Holiday.date).dedup.length := by
  have hc := compareHolidays_common_dates holidaysA holidaysB
  have ha := compareHolidays_onlyA_dates holidaysA holidaysB
  have hb := compareHolidays_onlyB_dates holidaysA holidaysB
  have hnd_common : ((compareHolidays holidaysA holidaysB).common.map CommonHoliday.date).Nodup := by
    rw [hc]
    exact (nodup_keys_jsMapOfList _).sublist ((List.filter_sublist _).map _)
  have hnd_onlyA : ((compareHolidays holidaysA holidaysB).onlyA.map Holiday.date).Nodup := by
    rw [ha]
    exact (nodup_keys_jsMapOfList _).sublist ((List.filter_sublist _).map _)
  have hnd_onlyB : ((compareHolidays holidaysA holidaysB).onlyB.map Holiday.date).Nodup := by
    rw [hb]
    exact (nodup_keys_jsMapOfList _).sublist ((List.filter_sublist _).map _)
  have hmem_common : ∀ d,
      d ∈ (compareHolidays holidaysA holidaysB).common.map CommonHoliday.date ↔
        (d ∈ holidaysA.map Holiday.date ∧ d ∈ holidaysB.map Holiday.date) := by
    intro d
    rw [hc]
    constructor
    · intro hd
      rcases List.mem_map.mp hd with ⟨kv, hkv, heq⟩
      rcases List.mem_filter.mp hkv with ⟨hmA, hp⟩
      refine ⟨(keys_holidayMap holidaysA d).mp (heq ▸ List.mem_map.mpr ⟨kv, hmA, rfl⟩), ?_⟩
      have hhas : jsMapHas (jsMapOfList (holidaysB.map fun h => (h.date, h))) kv.1 = true := by
        rw [← isSome_jsMapGet]
        exact hp
      exact (keys_holidayMap holidaysB d).mp (heq ▸ (jsMapHas_iff_mem _ _).mp hhas)
    · rintro ⟨h1, h2⟩
      have h1' := (keys_holidayMap holidaysA d).mpr h1
      rcases List.mem_map.mp h1' with ⟨kv, hmA, heq⟩
      apply List.mem_map.mpr
      refine ⟨kv, List.mem_filter.mpr ⟨hmA, ?_⟩, heq⟩
      rw [isSome_jsMapGet, heq]
      exact (jsMapHas_iff_mem _ _).mpr ((keys_holidayMap holidaysB d).mpr h2)
  have hmem_onlyA : ∀ d,
      d ∈ (compareHolidays holidaysA holidaysB).onlyA.map Holiday.date ↔
        (d ∈ holidaysA.map Holiday.date ∧ d ∉ holidaysB.map Holiday.date) := by
    intro d
    rw [ha]
    constructor
    · intro hd
      rcases List.mem_map.mp hd with ⟨kv, hkv, heq⟩
      rcases List.mem_filter.mp hkv with ⟨hmA, hp⟩
      have hp' : jsMapHas (jsMapOfList (holidaysB.map fun h => (h.date, h))) kv.1 = false := by
        simpa using hp
      refine ⟨(keys_holidayMap holidaysA d).mp (heq ▸ List.mem_map.mpr ⟨kv, hmA, rfl⟩), ?_⟩
      intro hmem
      have : jsMapHas (jsMapOfList (holidaysB.map fun h => (h.date, h))) kv.1 = true := by
        rw [heq]
        exact (jsMapHas_iff_mem _ _).mpr ((keys_holidayMap holidaysB d).mpr hmem)
      rw [this] at hp'
      exact Bool.noConfusion hp'
    · rintro ⟨h1, h2⟩
      have h1' := (keys_holidayMap holidaysA d).mpr h1
      rcases List.mem_map.mp h1' with ⟨kv, hmA, heq⟩
      apply List.mem_map.mpr
      refine ⟨kv, List.mem_filter.mpr ⟨hmA, ?_⟩, heq⟩
      have hfalse : jsMapHas (jsMapOfList (holidaysB.map fun h => (h.date, h))) kv.1 = false := by
        cases hbb : jsMapHas (jsMapOfList (holidaysB.map fun h => (h.date, h))) kv.1
        · rfl
        · exfalso
          apply h2
          apply (keys_holidayMap holidaysB d).mp
          rw [← heq]
          exact (jsMapHas_iff_mem _ _).mp hbb
      rw [hfalse]
      rfl
  have hmem_onlyB : ∀ d,
      d ∈ (compareHolidays holidaysA holidaysB).onlyB.map Holiday.date ↔
        (d ∈ holidaysB.map Holiday.date ∧ d ∉ holidaysA.map Holiday.date) := by
    intro d
    rw [hb]
    constructor
    · intro hd
      rcases List.mem_map.mp hd with ⟨kv, hkv, heq⟩
      rcases List.mem_filter.mp hkv with ⟨hmB, hp⟩
      have hp' : jsMapHas (jsMapOfList (holidaysA.map fun h => (h.date, h))) kv.1 = false := by
        simpa using hp
      refine ⟨(keys_holidayMap holidaysB d).mp (heq ▸ List.mem_map.mpr ⟨kv, hmB, rfl⟩), ?_⟩
      intro hmem
      have : jsMapHas (jsMapOfList (holidaysA.map fun h => (h.date, h))) kv.1 = true := by
        rw [heq]
        exact (jsMapHas_iff_mem _ _).mpr ((keys_holidayMap holidaysA d).mpr hmem)
      rw [this] at hp'
      exact Bool.noConfusion hp'
    · rintro ⟨h1, h2⟩
      have h1' := (keys_holidayMap holidaysB d).mpr h1
      rcases List.mem_map.mp h1' with ⟨kv, hmB, heq⟩
      apply List.mem_map.mpr
      refine ⟨kv, List.mem_filter.mpr ⟨hmB, ?_⟩, heq⟩
      have hfalse : jsMapHas (jsMapOfList (holidaysA.map fun h => (h.date, h))) kv.1 = false := by
        cases hbb : jsMapHas (jsMapOfList (holidaysA.map fun h => (h.date, h))) kv.1
        · rfl
        · exfalso
          apply h2
          apply (keys_holidayMap holidaysA d).mp
          rw [← heq]
          exact (jsMapHas_iff_mem _ _).mp hbb
      rw [hfalse]
      rfl
  have hlen_common : (compareHolidays holidaysA holidaysB).common.length
      = ((jsMapOfList (holidaysA.map fun h => (h.date, h))).filter
          (fun kv =>
            (jsMapGet (jsMapOfList (holidaysB.map fun h => (h.date, h))) kv.1).isSome)).length := by
    have h := congrArg List.length hc
    simpa using h
  have hlen_onlyA : (compareHolidays holidaysA holidaysB).onlyA.length
      = ((jsMapOfList (holidaysA.map fun h => (h.date, h))).filter
          (fun kv =>
            !(jsMapHas (jsMapOfList (holidaysB.map fun h => (h.date, h))) kv.1))).length := by
    have h := congrArg List.length ha
    simpa using h
  have hlen_onlyB : (compareHolidays holidaysA holidaysB).onlyB.length
      = ((jsMapOfList (holidaysB.map fun h => (h.date, h))).filter
          (fun kv =>
            !(jsMapHas (jsMapOfList (holidaysA.map fun h => (h.date, h))) kv.1))).length := by
    have h := congrArg List.length hb
    simpa using h
  have hsumA : (compareHolidays holidaysA holidaysB).common.length
      + (compareHolidays holidaysA holidaysB).onlyA.length
      = (holidaysA.map Holiday.date).dedup.length := by
    rw [hlen_common, hlen_onlyA, ← length_holidayMap holidaysA]
    exact length_filter_isSome_add _ _
  have hsumB : (compareHolidays holidaysA holidaysB).common.length
      + (compareHolidays holidaysA holidaysB).onlyB.length
      = (holidaysB.map Holiday.date).dedup.length := by
    have hcB : (compareHolidays holidaysA holidaysB).common.length
        = ((jsMapOfList (holidaysB.map fun h => (h.date, h))).filter
            (fun kv =>
              (jsMapGet (jsMapOfList (holidaysA.map fun h => (h.date, h))) kv.1).isSome)).length := by
      rw [hlen_common]
      exact length_filter_isSome_comm _ _ (nodup_keys_jsMapOfList _) (nodup_keys_jsMapOfList _)
    rw [hcB, hlen_onlyB, ← length_holidayMap holidaysB]
    exact length_filter_isSome_add _ _
  exact ⟨hnd_common, hnd_onlyA, hnd_onlyB, hmem_common, hmem_onlyA, hmem_onlyB,
    fun d hd => ((hmem_onlyA d).mp hd.2).2 ((hmem_common d).mp hd.1).2,
    fun d hd => ((hmem_onlyB d).mp hd.2).2 ((hmem_common d).mp hd.1).1,
    hsumA, hsumB⟩

/-- Witness for C1 at concrete holiday lists. -/
theorem compareCountries_holiday_partition_witness :
    (compareCountries "US" "CO" 2025
        [⟨"2025-01-01", "New Year", none, none⟩, ⟨"2025-07-04", "Independence Day", none, none⟩]
        [⟨"2025-01-01", "Año Nuevo", none, none⟩] (fun _ => none)).holidays.common.length
      + (compareCountries "US" "CO" 2025
        [⟨"2025-01-01", "New Year", none, none⟩, ⟨"2025-07-04", "Independence Day", none, none⟩]
        [⟨"2025-01-01", "Año Nuevo", none, none⟩] (fun _ => none)).holidays.onlyA.length
      = ((([⟨"2025-01-01", "New Year", none, none⟩,
            ⟨"2025-07-04", "Independence Day", none, none⟩] : List Holiday).map
          Holiday.date).dedup).length :=
  (compareCountries_holiday_partition "US" "CO" 2025
    [⟨"2025-01-01", "New Year", none, none⟩, ⟨"2025-07-04", "Independence Day", none, none⟩]
    [⟨"2025-01-01", "Año Nuevo", none, none⟩] (fun _ => none)).2.2.2.2.2.2.2.2.1
